import Mathlib

/-!
A shallow embedding of the seds-agent core: the sing-box process supervisor
(`singbox/manager.go`) and the gRPC client session logic (grpc client file:
`Client.Run`, `Client.sendHeartbeat`, `Client.receiveMessages`,
`Client.handleCommand`, `Client.handlePushConfig`).

Modelling conventions:
- time is modelled as `Int` unix seconds; Go zero `time.Time` is `0`;
- byte slices (`[]byte`, `json.RawMessage`) are `List Nat`;
- interactions with the operating system (signal delivery, kill, process
  exit, file writes, dialing) are parameters of explicit environment
  records, so each Go function becomes a pure function of its receiver
  state and its environment;
- a `sync.Mutex`-guarded Go method body is one atomic Lean function.
-/

/-- Byte strings (`[]byte` / `json.RawMessage`). -/
abbrev Bytes := List Nat

/-- The distinct error returns of `singbox/manager.go` (each Go
`fmt.Errorf` site is one constructor). -/
inductive ManagerError where
  /-- "sing-box is already running" -/
  | alreadyRunning
  /-- "config file not found: path" -/
  | configMissing (path : String)
  /-- "sing-box is not running" -/
  | notRunning
  /-- "failed to kill sing-box" (SIGTERM and the fallback Kill both failed) -/
  | killFailed
  /-- "failed to force kill sing-box" (Kill after the 10s timeout failed) -/
  | forceKillFailed
  /-- "failed to start sing-box" (`cmd.Start()` failed) -/
  | startFailed
  /-- "failed to create config directory" (`os.MkdirAll` failed) -/
  | mkdirFailed
  /-- "failed to write config" (`os.WriteFile` failed) -/
  | writeFailed
  deriving DecidableEq, Repr

/-- The error text produced by the corresponding `fmt.Errorf` call. -/
def managerErrorMessage : ManagerError → String
  | .alreadyRunning => "sing-box is already running"
  | .configMissing p => "config file not found: " ++ p
  | .notRunning => "sing-box is not running"
  | .killFailed => "failed to kill sing-box"
  | .forceKillFailed => "failed to force kill sing-box"
  | .startFailed => "failed to start sing-box"
  | .mkdirFailed => "failed to create config directory"
  | .writeFailed => "failed to write config"

/-- The part of the file system the manager touches: the config directory
and the config file at `m.configPath` (`none` = the file does not exist,
which is what `os.Stat` + `os.IsNotExist` observe in `Start`). -/
structure FS where
  dirExists : Bool
  configFile : Option Bytes
  deriving DecidableEq, Repr

/-- `singbox.Manager` (`manager.go`): mutex-guarded state. `cmdPresent`
models `m.cmd != nil && m.cmd.Process != nil` (a process handle is held). -/
structure Manager where
  cmdPresent : Bool
  configPath : String
  execPath : String
  running : Bool
  startTime : Int
  lastRestart : Int
  deriving DecidableEq, Repr

/-- `singbox.Status` (`manager.go`): the JSON status struct. `GetStatus`
never sets `Version`, so it keeps its zero value `""`. -/
structure Status where
  running : Bool
  version : String
  uptime : Int
  startTime : Int
  deriving DecidableEq, Repr

/-- Environment of one `Start()` call: whether `cmd.Start()` succeeds at
the OS level, and the current clock (`time.Now()`). Config-file existence
is read from the `FS` argument, as `os.Stat(m.configPath)` does. -/
structure StartEnv where
  startOk : Bool
  now : Int
  deriving DecidableEq, Repr

/-- Result of `Start()`: the Go error (if any), the manager state after the
call, and whether a subprocess was actually launched. -/
structure StartResult where
  res : Except ManagerError Unit
  state : Manager
  launched : Bool

/-- `Manager.Start` (`manager.go` lines 62-98), line by line:
reject if `m.running`; reject if the config file does not exist; assign
`m.cmd` (so `cmdPresent` becomes true even if the launch then fails);
launch; on success set `running`, `startTime`, `lastRestart` and spawn the
monitor goroutine. -/
def Manager.start (m : Manager) (fs : FS) (env : StartEnv) : StartResult :=
  if m.running then
    { res := .error .alreadyRunning, state := m, launched := false }
  else if fs.configFile.isNone then
    { res := .error (.configMissing m.configPath), state := m, launched := false }
  else
    let m1 := { m with cmdPresent := true }
    if env.startOk then
      { res := .ok ()
        state := { m1 with running := true, startTime := env.now, lastRestart := env.now }
        launched := true }
    else
      { res := .error .startFailed, state := m1, launched := false }

/-- Environment of one `Stop()` call: whether SIGTERM delivery succeeds,
whether `Process.Kill()` succeeds, and whether `cmd.Wait()` completes
before the 10-second timer. -/
structure StopEnv where
  signalOk : Bool
  killOk : Bool
  exitsWithin10s : Bool
  deriving DecidableEq, Repr

/-- `Manager.Stop` (`manager.go` lines 101-137), line by line:
reject if not running or no handle; send SIGTERM, and if that fails fall
back to `Kill()` (error out if both fail); then race `cmd.Wait()` against a
10-second timer: if the wait wins, clear `running` and succeed; if the
timer wins, `Kill()` — on kill success clear `running` and succeed, on kill
failure return an error leaving `running` set. The whole body holds the
exclusive lock, so it is one atomic step. -/
def Manager.stop (m : Manager) (env : StopEnv) : Except ManagerError Unit × Manager :=
  if !m.running || !m.cmdPresent then
    (.error .notRunning, m)
  else if !env.signalOk && !env.killOk then
    (.error .killFailed, m)
  else if env.exitsWithin10s then
    (.ok (), { m with running := false })
  else if env.killOk then
    (.ok (), { m with running := false })
  else
    (.error .forceKillFailed, m)

/-- Environments of the `Stop()` and `Start()` performed by `Restart()`. -/
structure RestartEnv where
  stopEnv : StopEnv
  startEnv : StartEnv
  deriving DecidableEq, Repr

/-- `Manager.Restart` (`manager.go` lines 140-149): `Stop()` with any error
only logged (`log.Printf("Warning: ...")`) and discarded, then
`time.Sleep(1 * time.Second)` (the returned `Nat` is that settle delay in
seconds), then `Start()`, whose result is returned. -/
def Manager.restart (m : Manager) (fs : FS) (env : RestartEnv) : Nat × StartResult :=
  let p := m.stop env.stopEnv
  (1, p.2.start fs env.startEnv)

/-- `Manager.GetStatus` (`manager.go` lines 152-166): under the shared
lock, build `Status{Running: m.running}` and, only if running, fill
`Uptime` (`time.Since(m.startTime)` in whole seconds) and `StartTime`;
when not running both keep their zero value. Pure in the state and the
clock — it never touches the subprocess. -/
def Manager.getStatus (m : Manager) (now : Int) : Status :=
  if m.running then
    { running := m.running, version := "", uptime := now - m.startTime, startTime := m.startTime }
  else
    { running := m.running, version := "", uptime := 0, startTime := 0 }

/-- `Manager.IsRunning` (`manager.go` lines 169-173). -/
def Manager.isRunning (m : Manager) : Bool :=
  m.running

/-- Environment of one `UpdateConfig` call: whether `os.MkdirAll` and
`os.WriteFile` succeed. -/
structure UpdateEnv where
  mkdirOk : Bool
  writeOk : Bool
  deriving DecidableEq, Repr

/-- `Manager.UpdateConfig` (`manager.go` lines 43-59): ensure the config
directory exists, then write the payload to the config file as a full
overwrite. On mkdir failure nothing changes; on write failure the
directory exists but the file is unchanged. -/
def Manager.updateConfig (fs : FS) (payload : Bytes) (env : UpdateEnv) :
    Except ManagerError Unit × FS :=
  if !env.mkdirOk then
    (.error .mkdirFailed, fs)
  else
    let fs1 := { fs with dirExists := true }
    if !env.writeOk then
      (.error .writeFailed, fs1)
    else
      (.ok (), { fs1 with configFile := some payload })

/-- The model of `json.Marshal` on `Status` in `handleCommand`
(field order as declared in the Go struct). -/
def statusJson (s : Status) : String :=
  "\x7b\"running\":" ++ (if s.running then "true" else "false")
    ++ ",\"version\":\"" ++ s.version
    ++ "\",\"uptime\":" ++ toString s.uptime
    ++ ",\"start_time\":" ++ toString s.startTime ++ "\x7d"

/-- The outbound message kinds of the wire protocol (`AgentMessage` payload
variants) that the session loops send. -/
inductive AgentMsgKind where
  | register
  | heartbeat
  | sysStats
  | sbStatus
  | commandResult
  deriving DecidableEq, Repr

/-- Environment of one heartbeat-ticker tick in `Client.sendHeartbeat`:
the result of `statsCollector.Collect()` (`collector.go` returns `nil`
bytes exactly when it returns an error, so `none` models provider
failure), and whether each of the three stream sends succeeds. The stats
and status send outcomes never influence control flow — their failures are
only logged. -/
structure TickEnv where
  statsResult : Option Bytes
  heartbeatSendOk : Bool
  statsSendOk : Bool
  statusSendOk : Bool
  deriving DecidableEq, Repr

/-- Outcome of one tick: the sends attempted on the stream in order,
whether `c.cancel()` was called, and whether the loop returned. -/
structure TickResult where
  sends : List AgentMsgKind
  cancelCalled : Bool
  exited : Bool
  deriving DecidableEq, Repr

/-- The `case <-ticker.C:` body of `Client.sendHeartbeat` (grpc client,
lines 350-410): collect stats (failure logged only); send the
heartbeat-timestamp message; if that send fails, log, call `c.cancel()`
and `return` — the stats and status sends of this tick are not reached.
Otherwise send the stats message only when the collected bytes are
non-nil, then send the supervisor-status message, and keep looping. -/
def heartbeatTick (env : TickEnv) : TickResult :=
  if !env.heartbeatSendOk then
    { sends := [AgentMsgKind.heartbeat], cancelCalled := true, exited := true }
  else
    let statsSends :=
      match env.statsResult with
      | some _ => [AgentMsgKind.sysStats]
      | none => []
    { sends := AgentMsgKind.heartbeat :: statsSends ++ [AgentMsgKind.sbStatus]
      cancelCalled := false
      exited := false }

/-- `proto.Command` as consumed by `Client.handleCommand`: the command id
and the type string. -/
structure Command where
  commandId : String
  cmdType : String
  deriving DecidableEq, Repr

/-- `proto.CommandResult` as built by `Client.handleCommand`: `Error` keeps
its zero value `""` when the dispatched operation returned no error. -/
structure CommandResult where
  commandId : String
  success : Bool
  output : String
  error : String
  deriving DecidableEq, Repr

/-- Environments for the supervisor operations a command may dispatch to,
plus the clock used by the `"status"` arm. -/
structure CommandEnv where
  startEnv : StartEnv
  stopEnv : StopEnv
  restartEnv : RestartEnv
  now : Int
  deriving DecidableEq, Repr

/-- The Go `error` of a supervisor operation as an optional message string
(`none` = `nil`). -/
def errMsgOf : Except ManagerError Unit → Option String
  | .ok _ => none
  | .error e => some (managerErrorMessage e)

/-- The `switch cmd.Type` of `Client.handleCommand` (grpc client, lines
491-507): each arm sets `err` and `output`; the `"status"` arm ignores the
marshal error; the default arm sets `err` to the "unknown command" error
and leaves `output` at its zero value. Returns the manager state after the
dispatched operation, the error, and the output. -/
def commandDispatch (m : Manager) (fs : FS) (ty : String) (env : CommandEnv) :
    Manager × Option String × String :=
  if ty = "start" then
    let r := m.start fs env.startEnv
    (r.state, errMsgOf r.res, "Sing-box started")
  else if ty = "stop" then
    let p := m.stop env.stopEnv
    (p.2, errMsgOf p.1, "Sing-box stopped")
  else if ty = "restart" then
    let r := (m.restart fs env.restartEnv).2
    (r.state, errMsgOf r.res, "Sing-box restarted")
  else if ty = "status" then
    (m, none, statusJson (m.getStatus env.now))
  else
    (m, some ("unknown command: " ++ ty), "")

/-- `Client.handleCommand` (grpc client, lines 485-525): dispatch, then
build the `CommandResult` with `Success := err == nil`, the output, and
the error text when `err != nil`; the result is then sent on the stream
(`return c.stream.Send(result)`). -/
def handleCommand (m : Manager) (fs : FS) (cmd : Command) (env : CommandEnv) :
    Manager × CommandResult :=
  let d := commandDispatch m fs cmd.cmdType env
  (d.1,
    { commandId := cmd.commandId
      success := d.2.1.isNone
      output := d.2.2
      error := d.2.1.getD "" })

/-- Environments for the operations `Client.handlePushConfig` performs. -/
structure PushEnv where
  updateEnv : UpdateEnv
  stopEnv : StopEnv
  startEnv : StartEnv
  deriving DecidableEq, Repr

/-- The supervisor operations invoked while handling a config push, in
invocation order. -/
inductive PushAction where
  | updateConfigFile
  | restartProcess
  | startProcess
  deriving DecidableEq, Repr

/-- Outcome of `Client.handlePushConfig`. -/
structure PushResult where
  manager : Manager
  fs : FS
  actions : List PushAction
  err : Option String
  sends : List AgentMsgKind
  deriving Repr

/-- `Client.handlePushConfig` (grpc client, lines 456-482):
`sbManager.UpdateConfig(payload)` first — on failure log and return the
error; then `Restart()` if `sbManager.IsRunning()` else `Start()` — on
failure log and return the error; no message of any kind is sent back in
any branch (the return value is only logged by `receiveMessages`). -/
def handlePushConfig (m : Manager) (fs : FS) (payload : Bytes) (env : PushEnv) :
    PushResult :=
  let u := Manager.updateConfig fs payload env.updateEnv
  match u.1 with
  | .error e =>
      { manager := m, fs := u.2, actions := [PushAction.updateConfigFile]
        err := some (managerErrorMessage e), sends := [] }
  | .ok _ =>
      if m.isRunning then
        let r := (m.restart u.2 { stopEnv := env.stopEnv, startEnv := env.startEnv }).2
        { manager := r.state, fs := u.2
          actions := [PushAction.updateConfigFile, PushAction.restartProcess]
          err := errMsgOf r.res, sends := [] }
      else
        let r := m.start u.2 env.startEnv
        { manager := r.state, fs := u.2
          actions := [PushAction.updateConfigFile, PushAction.startProcess]
          err := errMsgOf r.res, sends := [] }

/-- `proto.ServerMessage` payload variants dispatched by
`Client.handleMessage`. -/
inductive ServerMsg where
  | registerResponse (success : Bool) (message : String) (nodeId : Int)
  | pushConfig (version : Int) (configJson : Bytes)
  | command (commandId : String) (cmdType : String)
  | unknownVariant
  deriving DecidableEq, Repr

/-- Environment of one iteration of `Client.receiveMessages`: the result of
`stream.Recv()` (`none` = transport error) and the environments of the
handlers the message may dispatch to. -/
structure RecvEnv where
  recv : Option ServerMsg
  cmdEnv : CommandEnv
  pushEnv : PushEnv
  deriving Repr

/-- Outcome of one iteration of `Client.receiveMessages`. -/
structure RecvResult where
  manager : Manager
  fs : FS
  sends : List AgentMsgKind
  cancelCalled : Bool
  loopContinues : Bool
  deriving Repr

/-- One iteration of `Client.receiveMessages` (grpc client, lines
415-428) together with `Client.handleMessage`: a `Recv` error logs, calls
`c.cancel()` and returns; a decoded message is dispatched, any handler
error (including a failed `CommandResult` send) is only logged, and the
loop continues; unknown variants are logged and ignored. Only the command
handler sends anything back. -/
def receiveIteration (m : Manager) (fs : FS) (env : RecvEnv) : RecvResult :=
  match env.recv with
  | none =>
      { manager := m, fs := fs, sends := [], cancelCalled := true, loopContinues := false }
  | some msg =>
      match msg with
      | .registerResponse _ _ _ =>
          { manager := m, fs := fs, sends := [], cancelCalled := false, loopContinues := true }
      | .pushConfig _ payload =>
          let r := handlePushConfig m fs payload env.pushEnv
          { manager := r.manager, fs := r.fs, sends := r.sends
            cancelCalled := false, loopContinues := true }
      | .command id ty =>
          let p := handleCommand m fs { commandId := id, cmdType := ty } env.cmdEnv
          { manager := p.1, fs := fs, sends := [AgentMsgKind.commandResult]
            cancelCalled := false, loopContinues := true }
      | .unknownVariant =>
          { manager := m, fs := fs, sends := [], cancelCalled := false, loopContinues := true }

/-- The connection-related fields of `grpc.Client`: the current channel
and stream (identified by the allocation counter `nextConn`), the current
cancellation context (identified by `ctxId`, with `nextCtx` the fresh
counter), whether that context has been cancelled, and the set of channel
ids on which `conn.Close()` has ever been called. -/
structure ClientState where
  nextConn : Nat
  conn : Option Nat
  stream : Option Nat
  ctxId : Nat
  nextCtx : Nat
  cancelled : Bool
  closed : List Nat
  deriving DecidableEq, Repr

/-- Environment of one `Client.Connect` call: whether the dial, the stream
creation, and the register send succeed. -/
structure ConnectEnv where
  dialOk : Bool
  streamOk : Bool
  registerOk : Bool
  deriving DecidableEq, Repr

/-- `Client.Connect` (grpc client, lines 280-323): dial (on failure the
fields are untouched); assign `c.conn` to the new channel; create the
stream on `c.ctx` and assign `c.stream` (on failure `c.conn` keeps the new
channel and the old one is simply overwritten, never closed); send the
register message (on failure likewise). On success the receive and
heartbeat goroutines are started. No branch closes any prior channel. -/
def clientConnect (s : ClientState) (env : ConnectEnv) : ClientState × Bool :=
  if !env.dialOk then
    (s, false)
  else
    let s1 := { s with conn := some s.nextConn, nextConn := s.nextConn + 1 }
    if !env.streamOk then
      (s1, false)
    else
      let s2 := { s1 with stream := some s.nextConn }
      if !env.registerOk then
        (s2, false)
      else
        (s2, true)

/-- `Client.Close` (grpc client, lines 528-537): `c.cancel()`, half-close
the stream, and `conn.Close()` — the only place in the client where a
channel is ever closed. -/
def clientClose (s : ClientState) : ClientState :=
  let closed' :=
    match s.conn with
    | some c => c :: s.closed
    | none => s.closed
  { s with cancelled := true, closed := closed' }

/-- One iteration of the reconnect loop `Client.Run` (grpc client, lines
540-558), ending just before the next `Connect` attempt: call `Connect`;
on failure sleep 10s and continue — nothing else changes, in particular
the context is the same one; on success block until `<-c.ctx.Done()`
(the session's cancellation fires, set by a loop on fatal error or by
`Close`), sleep 5s, then replace the context with a freshly created one.
No branch closes `c.conn` or `c.stream`. -/
def runIteration (s : ClientState) (env : ConnectEnv) : ClientState :=
  let p := clientConnect s env
  if !p.2 then
    p.1
  else
    let s2 := { p.1 with cancelled := true }
    { s2 with ctxId := s2.nextCtx, nextCtx := s2.nextCtx + 1, cancelled := false }

/-- `grpc.NewClient`: no channel, no stream, a fresh context, nothing
closed. -/
def clientInit : ClientState :=
  { nextConn := 0, conn := none, stream := none, ctxId := 0, nextCtx := 1
    cancelled := false, closed := [] }

/-- A connect environment in which dial, stream creation and register all
succeed. -/
def c1AllOk : ConnectEnv :=
  { dialOk := true, streamOk := true, registerOk := true }

/-- A running manager with a held process handle. -/
def mRun : Manager :=
  { cmdPresent := true, configPath := "/opt/seds/config/config.json"
    execPath := "sing-box", running := true, startTime := 100, lastRestart := 100 }

/-- A freshly constructed (stopped) manager. -/
def mStopped : Manager :=
  { cmdPresent := false, configPath := "/opt/seds/config/config.json"
    execPath := "sing-box", running := false, startTime := 0, lastRestart := 0 }

/-- A manager equal to `mRun` on `running` and `startTime` but differing in
the handle and the paths. -/
def mRunAlt : Manager :=
  { cmdPresent := false, configPath := "/elsewhere/config.json"
    execPath := "other", running := true, startTime := 100, lastRestart := 7 }

/-- An empty config directory: no config file. -/
def fsEmpty : FS :=
  { dirExists := false, configFile := none }

/-- A config directory holding a config file. -/
def fsWithConfig : FS :=
  { dirExists := true, configFile := some [123, 125] }

/-- Claim C1 (counterexample): after one successful session of the
reconnect loop ends (its cancellation fires), the next connection attempt
is reached with the prior session's channel (channel id 0) still assigned
and never closed — `Client.Run` contains no `conn.Close()` call on any
path, so the claim that the prior session's channel is destroyed (closed)
before the next attempt is false. -/
theorem c1_counterexample :
    (runIteration clientInit c1AllOk).conn = some 0 ∧
    (runIteration clientInit c1AllOk).closed = [] ∧
    ¬ (0 ∈ (runIteration clientInit c1AllOk).closed) := by
  decide

/-- Claim C1 (amended): one iteration of `Client.Run` never closes any
channel (the closed set is untouched on every path); after a session ends
the next attempt is reached with a freshly dialed channel (`s.nextConn`)
and a freshly created cancellation context (`s.nextCtx`, distinct from the
prior context) whose signal has not fired; but after a failed `Connect()`
the same cancellation context is reused for the next attempt. -/
theorem c1_reconnect_amended (s : ClientState) (env0 envOk envF : ConnectEnv)
    (h1 : envOk.dialOk = true) (h2 : envOk.streamOk = true) (h3 : envOk.registerOk = true)
    (hctx : s.ctxId < s.nextCtx)
    (hF : envF.dialOk = false ∨ envF.streamOk = false ∨ envF.registerOk = false) :
    (runIteration s env0).closed = s.closed ∧
    (runIteration s envOk).conn = some s.nextConn ∧
    (runIteration s envOk).ctxId = s.nextCtx ∧
    (runIteration s envOk).ctxId ≠ s.ctxId ∧
    (runIteration s envOk).cancelled = false ∧
    (runIteration s envF).ctxId = s.ctxId ∧
    (runIteration s envF).cancelled = s.cancelled := by
  refine ⟨?_, ?_, ?_, ?_, ?_, ?_, ?_⟩
  · rcases env0 with ⟨d, st, r⟩
    cases d <;> cases st <;> cases r <;> simp [runIteration, clientConnect]
  · simp [runIteration, clientConnect, h1, h2, h3]
  · simp [runIteration, clientConnect, h1, h2, h3]
  · simp [runIteration, clientConnect, h1, h2, h3]
    omega
  · simp [runIteration, clientConnect, h1, h2, h3]
  · rcases envF with ⟨d, st, r⟩
    cases d <;> cases st <;> cases r <;> simp_all [runIteration, clientConnect]
  · rcases envF with ⟨d, st, r⟩
    cases d <;> cases st <;> cases r <;> simp_all [runIteration, clientConnect]

/-- Claim C1 (amended, witness): the amended theorem applied to the
freshly constructed client and all-successful / dial-failing connect
environments. -/
theorem c1_amended_witness :
    (runIteration clientInit c1AllOk).ctxId = clientInit.nextCtx ∧
    (runIteration clientInit c1AllOk).closed = clientInit.closed :=
  ⟨(c1_reconnect_amended clientInit c1AllOk c1AllOk
      { dialOk := false, streamOk := true, registerOk := true }
      rfl rfl rfl (by decide) (Or.inl rfl)).2.2.1,
   (c1_reconnect_amended clientInit c1AllOk c1AllOk
      { dialOk := false, streamOk := true, registerOk := true }
      rfl rfl rfl (by decide) (Or.inl rfl)).1⟩

/-- Claim C2: for a Running supervisor with a held handle, `Stop()` returns
success and leaves the state equal to the prior state with only the
running flag cleared, both on the graceful-exit path (`env1`: SIGTERM
delivered, the process exits within the 10-second window) and on the
10-second-timeout force-kill path (`env2`: SIGTERM delivered, the timer
wins, the kill succeeds); the whole body runs under the exclusive lock, so
no intermediate state is visible after return. -/
theorem c2_stop_both_paths (m : Manager) (env1 env2 : StopEnv)
    (hrun : m.running = true) (hcmd : m.cmdPresent = true)
    (h1sig : env1.signalOk = true) (h1exit : env1.exitsWithin10s = true)
    (h2sig : env2.signalOk = true) (h2exit : env2.exitsWithin10s = false)
    (h2kill : env2.killOk = true) :
    m.stop env1 = (.ok (), { m with running := false }) ∧
    m.stop env2 = (.ok (), { m with running := false }) := by
  constructor <;>
    simp [Manager.stop, hrun, hcmd, h1sig, h1exit, h2sig, h2exit, h2kill]

/-- Claim C2 (witness): both paths at a concrete running manager. -/
theorem c2_witness :
    mRun.stop { signalOk := true, killOk := false, exitsWithin10s := true } =
      (.ok (), { mRun with running := false }) ∧
    mRun.stop { signalOk := true, killOk := true, exitsWithin10s := false } =
      (.ok (), { mRun with running := false }) :=
  c2_stop_both_paths mRun
    { signalOk := true, killOk := false, exitsWithin10s := true }
    { signalOk := true, killOk := true, exitsWithin10s := false }
    rfl rfl rfl rfl rfl rfl rfl

/-- Claim C3: on a heartbeat tick whose stats collection failed (`env1`,
where `Collect()` returned nil bytes with its error — the failure is only
logged), the heartbeat-timestamp message is still the first send of the
tick, the stats message is omitted, and the tick cancels/exits only if the
heartbeat send itself fails; on a tick whose heartbeat-timestamp send
fails (`env2`), `c.cancel()` is called, the loop returns immediately, and
the only send attempted that tick is the heartbeat itself — neither the
stats nor the status send is reached. -/
theorem c3_heartbeat_tick (env1 env2 : TickEnv)
    (h1 : env1.statsResult = none)
    (h2 : env2.heartbeatSendOk = false) :
    (heartbeatTick env1).sends.head? = some AgentMsgKind.heartbeat ∧
    AgentMsgKind.sysStats ∉ (heartbeatTick env1).sends ∧
    (heartbeatTick env1).cancelCalled = (!env1.heartbeatSendOk) ∧
    (heartbeatTick env1).exited = (!env1.heartbeatSendOk) ∧
    (heartbeatTick env2).cancelCalled = true ∧
    (heartbeatTick env2).exited = true ∧
    (heartbeatTick env2).sends = [AgentMsgKind.heartbeat] := by
  refine ⟨?_, ?_, ?_, ?_, ?_, ?_, ?_⟩
  · cases hb : env1.heartbeatSendOk <;> simp [heartbeatTick, h1, hb]
  · cases hb : env1.heartbeatSendOk <;> simp [heartbeatTick, h1, hb]
  · cases hb : env1.heartbeatSendOk <;> simp [heartbeatTick, h1, hb]
  · cases hb : env1.heartbeatSendOk <;> simp [heartbeatTick, h1, hb]
  · simp [heartbeatTick, h2]
  · simp [heartbeatTick, h2]
  · simp [heartbeatTick, h2]

/-- Claim C3 (witness): a tick with failing stats provider and working
sends, and a tick with a failing heartbeat send. -/
theorem c3_witness :
    AgentMsgKind.sysStats ∉
      (heartbeatTick { statsResult := none, heartbeatSendOk := true
                       statsSendOk := true, statusSendOk := true }).sends ∧
    (heartbeatTick { statsResult := none, heartbeatSendOk := false
                     statsSendOk := true, statusSendOk := true }).sends =
      [AgentMsgKind.heartbeat] :=
  ⟨(c3_heartbeat_tick
      { statsResult := none, heartbeatSendOk := true, statsSendOk := true, statusSendOk := true }
      { statsResult := none, heartbeatSendOk := false, statsSendOk := true, statusSendOk := true }
      rfl rfl).2.1,
   (c3_heartbeat_tick
      { statsResult := none, heartbeatSendOk := true, statsSendOk := true, statusSendOk := true }
      { statsResult := none, heartbeatSendOk := false, statsSendOk := true, statusSendOk := true }
      rfl rfl).2.2.2.2.2.2⟩

/-- Claim C4: `Start()` on a Running supervisor (`m1`) fails with the
AlreadyRunning error leaving the state untouched and launching nothing,
and `Start()` on a Stopped supervisor whose config file does not exist
(`m2`, `fs2`) fails with the ConfigMissing error naming the config path,
likewise leaving the state untouched and launching nothing. -/
theorem c4_start_failure_cases (m1 m2 : Manager) (fs1 fs2 : FS) (env : StartEnv)
    (h1 : m1.running = true)
    (h2 : m2.running = false) (hfs : fs2.configFile = none) :
    m1.start fs1 env = { res := .error .alreadyRunning, state := m1, launched := false } ∧
    m2.start fs2 env =
      { res := .error (.configMissing m2.configPath), state := m2, launched := false } := by
  constructor
  · simp [Manager.start, h1]
  · simp [Manager.start, h2, hfs]

/-- Claim C4 (witness): scenario B's second call (running manager) and
scenario A (empty config dir) at concrete states. -/
theorem c4_witness :
    mRun.start fsEmpty { startOk := true, now := 200 } =
      { res := .error .alreadyRunning, state := mRun, launched := false } ∧
    mStopped.start fsEmpty { startOk := true, now := 200 } =
      { res := .error (.configMissing mStopped.configPath), state := mStopped
        launched := false } :=
  c4_start_failure_cases mRun mStopped fsEmpty fsEmpty { startOk := true, now := 200 }
    rfl rfl rfl

/-- Claim C5: handling a config push never sends any message back (`env0`
arbitrary); when the config write succeeds (`envOk`) the config file ends
up byte-for-byte equal to the pushed payload and the handler performed
exactly UpdateConfig followed by Restart if the supervisor was running,
else Start; when the write fails (`envBad`) the handler stops after
UpdateConfig and reports the failure as an error (which the caller only
logs). -/
theorem c5_push_config (m : Manager) (fs : FS) (payload : Bytes)
    (env0 envOk envBad : PushEnv)
    (hOk1 : envOk.updateEnv.mkdirOk = true) (hOk2 : envOk.updateEnv.writeOk = true)
    (hBad : envBad.updateEnv.mkdirOk = false ∨ envBad.updateEnv.writeOk = false) :
    (handlePushConfig m fs payload env0).sends = [] ∧
    (handlePushConfig m fs payload envOk).fs.configFile = some payload ∧
    (handlePushConfig m fs payload envOk).actions =
      [PushAction.updateConfigFile,
        if m.running then PushAction.restartProcess else PushAction.startProcess] ∧
    (handlePushConfig m fs payload envBad).actions = [PushAction.updateConfigFile] ∧
    (handlePushConfig m fs payload envBad).err.isSome = true := by
  refine ⟨?_, ?_, ?_, ?_, ?_⟩
  · rcases env0 with ⟨⟨mk, wr⟩, se, ste⟩
    cases mk <;> cases wr <;> cases hm : m.running <;>
      simp [handlePushConfig, Manager.updateConfig, Manager.isRunning, hm]
  · cases hm : m.running <;>
      simp [handlePushConfig, Manager.updateConfig, Manager.isRunning, hm, hOk1, hOk2]
  · cases hm : m.running <;>
      simp [handlePushConfig, Manager.updateConfig, Manager.isRunning, hm, hOk1, hOk2]
  · rcases envBad with ⟨⟨mk, wr⟩, se, ste⟩
    cases mk <;> cases wr <;>
      simp_all [handlePushConfig, Manager.updateConfig]
  · rcases envBad with ⟨⟨mk, wr⟩, se, ste⟩
    cases mk <;> cases wr <;>
      simp_all [handlePushConfig, Manager.updateConfig]

/-- A push environment in which every operation succeeds. -/
def pushEnvOk : PushEnv :=
  { updateEnv := { mkdirOk := true, writeOk := true }
    stopEnv := { signalOk := true, killOk := true, exitsWithin10s := true }
    startEnv := { startOk := true, now := 300 } }

/-- A push environment whose config write fails. -/
def pushEnvBad : PushEnv :=
  { updateEnv := { mkdirOk := true, writeOk := false }
    stopEnv := { signalOk := true, killOk := true, exitsWithin10s := true }
    startEnv := { startOk := true, now := 300 } }

/-- Claim C5 (witness): scenario E — a push received while Running: the
file ends up equal to the payload and the supervisor was restarted; and a
failing write stops after UpdateConfig. -/
theorem c5_witness :
    (handlePushConfig mRun fsWithConfig [7, 8, 9] pushEnvOk).fs.configFile = some [7, 8, 9] ∧
    (handlePushConfig mRun fsWithConfig [7, 8, 9] pushEnvOk).actions =
      [PushAction.updateConfigFile,
        if mRun.running then PushAction.restartProcess else PushAction.startProcess] ∧
    (handlePushConfig mRun fsWithConfig [7, 8, 9] pushEnvBad).actions =
      [PushAction.updateConfigFile] :=
  ⟨(c5_push_config mRun fsWithConfig [7, 8, 9] pushEnvOk pushEnvOk pushEnvBad
      rfl rfl (Or.inr rfl)).2.1,
   (c5_push_config mRun fsWithConfig [7, 8, 9] pushEnvOk pushEnvOk pushEnvBad
      rfl rfl (Or.inr rfl)).2.2.1,
   (c5_push_config mRun fsWithConfig [7, 8, 9] pushEnvOk pushEnvOk pushEnvBad
      rfl rfl (Or.inr rfl)).2.2.2.1⟩

/-- A command environment with all supervisor operations succeeding. -/
def cmdEnvW : CommandEnv :=
  { startEnv := { startOk := true, now := 300 }
    stopEnv := { signalOk := true, killOk := true, exitsWithin10s := true }
    restartEnv := { stopEnv := { signalOk := true, killOk := true, exitsWithin10s := true }
                    startEnv := { startOk := true, now := 300 } }
    now := 400 }

/-- Claim C6: a command whose type is none of start/stop/restart/status
produces a `CommandResult` carrying the command's id, `success = false`
and the error text "unknown command: type", with the manager untouched;
the receive-loop iteration that handled it does not cancel the session and
continues (the one send it attempts is the `CommandResult`); and for the
recognized types the result's success flag is true exactly when the
dispatched supervisor operation returned no error (always true for
status, whose marshal error is ignored). -/
theorem c6_command_dispatch (m : Manager) (fs : FS) (id ty : String)
    (cenv : CommandEnv) (penv : PushEnv)
    (h1 : ty ≠ "start") (h2 : ty ≠ "stop") (h3 : ty ≠ "restart") (h4 : ty ≠ "status") :
    (handleCommand m fs { commandId := id, cmdType := ty } cenv).2 =
      { commandId := id, success := false, output := ""
        error := "unknown command: " ++ ty } ∧
    (handleCommand m fs { commandId := id, cmdType := ty } cenv).1 = m ∧
    (receiveIteration m fs
      { recv := some (ServerMsg.command id ty), cmdEnv := cenv, pushEnv := penv }).cancelCalled
      = false ∧
    (receiveIteration m fs
      { recv := some (ServerMsg.command id ty), cmdEnv := cenv, pushEnv := penv }).loopContinues
      = true ∧
    (receiveIteration m fs
      { recv := some (ServerMsg.command id ty), cmdEnv := cenv, pushEnv := penv }).sends
      = [AgentMsgKind.commandResult] ∧
    ((handleCommand m fs { commandId := id, cmdType := "start" } cenv).2.success = true ↔
      (m.start fs cenv.startEnv).res = .ok ()) ∧
    ((handleCommand m fs { commandId := id, cmdType := "stop" } cenv).2.success = true ↔
      (m.stop cenv.stopEnv).1 = .ok ()) ∧
    ((handleCommand m fs { commandId := id, cmdType := "restart" } cenv).2.success = true ↔
      ((m.restart fs cenv.restartEnv).2).res = .ok ()) ∧
    (handleCommand m fs { commandId := id, cmdType := "status" } cenv).2.success = true := by
  refine ⟨?_, ?_, ?_, ?_, ?_, ?_, ?_, ?_, ?_⟩
  · simp [handleCommand, commandDispatch, h1, h2, h3, h4]
  · simp [handleCommand, commandDispatch, h1, h2, h3, h4]
  · simp [receiveIteration]
  · simp [receiveIteration]
  · simp [receiveIteration]
  · cases hres : (m.start fs cenv.startEnv).res with
    | ok u => cases u; simp [handleCommand, commandDispatch, errMsgOf, hres]
    | error e => simp [handleCommand, commandDispatch, errMsgOf, hres]
  · cases hres : (m.stop cenv.stopEnv).1 with
    | ok u => cases u; simp [handleCommand, commandDispatch, errMsgOf, hres]
    | error e => simp [handleCommand, commandDispatch, errMsgOf, hres]
  · cases hres : ((m.restart fs cenv.restartEnv).2).res with
    | ok u => cases u; simp [handleCommand, commandDispatch, errMsgOf, hres]
    | error e => simp [handleCommand, commandDispatch, errMsgOf, hres]
  · simp [handleCommand, commandDispatch]

/-- Claim C6 (witness): an unrecognized command at a concrete running
manager, plus the always-true status arm. -/
theorem c6_witness :
    (handleCommand mRun fsWithConfig { commandId := "cmd-1", cmdType := "frobnicate" }
        cmdEnvW).2 =
      { commandId := "cmd-1", success := false, output := ""
        error := "unknown command: " ++ "frobnicate" } ∧
    (handleCommand mRun fsWithConfig { commandId := "cmd-1", cmdType := "status" }
        cmdEnvW).2.success = true :=
  ⟨(c6_command_dispatch mRun fsWithConfig "cmd-1" "frobnicate" cmdEnvW pushEnvOk
      (by decide) (by decide) (by decide) (by decide)).1,
   (c6_command_dispatch mRun fsWithConfig "cmd-1" "frobnicate" cmdEnvW pushEnvOk
      (by decide) (by decide) (by decide) (by decide)).2.2.2.2.2.2.2.2⟩

/-- Claim C8: `Restart()` performs `Stop()` with its error discarded after
logging, then a fixed 1-second settle delay, then `Start()`, returning
`Start()`'s result; on a Stopped supervisor the swallowed `Stop()` leaves
the state untouched, so `Restart()` is exactly `Start()` on that
supervisor — same result, same resulting state, same launch behaviour. -/
theorem c8_restart_on_stopped (m : Manager) (fs : FS) (env : RestartEnv)
    (h : m.running = false) :
    (m.restart fs env).1 = 1 ∧
    (m.restart fs env).2 = ((m.stop env.stopEnv).2).start fs env.startEnv ∧
    (m.restart fs env).2 = m.start fs env.startEnv := by
  refine ⟨rfl, rfl, ?_⟩
  simp [Manager.restart, Manager.stop, h]

/-- Claim C8 (witness): restart of a concrete Stopped supervisor with a
config file present. -/
theorem c8_witness :
    (mStopped.restart fsWithConfig
      { stopEnv := { signalOk := true, killOk := true, exitsWithin10s := true }
        startEnv := { startOk := true, now := 500 } }).1 = 1 ∧
    (mStopped.restart fsWithConfig
      { stopEnv := { signalOk := true, killOk := true, exitsWithin10s := true }
        startEnv := { startOk := true, now := 500 } }).2 =
      ((mStopped.stop { signalOk := true, killOk := true, exitsWithin10s := true }).2).start
        fsWithConfig { startOk := true, now := 500 } ∧
    (mStopped.restart fsWithConfig
      { stopEnv := { signalOk := true, killOk := true, exitsWithin10s := true }
        startEnv := { startOk := true, now := 500 } }).2 =
      mStopped.start fsWithConfig { startOk := true, now := 500 } :=
  c8_restart_on_stopped mStopped fsWithConfig
    { stopEnv := { signalOk := true, killOk := true, exitsWithin10s := true }
      startEnv := { startOk := true, now := 500 } }
    rfl

/-- Claim C9: `GetStatus()` returns the running flag, an uptime of
`now - startTime` seconds when running and 0 when not, and the start
timestamp when running (its zero value 0 when not); and it is a function
of only the lock-protected `running` and `startTime` fields — two managers
agreeing on those two fields (here `m2` may hold a different process
handle and different paths) get identical statuses, so it never interacts
with the subprocess. -/
theorem c9_get_status (m m2 : Manager) (now : Int)
    (hr : m2.running = m.running) (hs : m2.startTime = m.startTime) :
    (m.getStatus now).running = m.running ∧
    (m.getStatus now).uptime = (if m.running then now - m.startTime else 0) ∧
    (m.getStatus now).startTime = (if m.running then m.startTime else 0) ∧
    m2.getStatus now = m.getStatus now := by
  cases hrun : m.running <;> simp_all [Manager.getStatus]

/-- Claim C9 (witness): status of a concrete running manager, compared
against a manager differing only in handle and paths. -/
theorem c9_witness :
    (mRun.getStatus 160).running = mRun.running ∧
    (mRun.getStatus 160).uptime = (if mRun.running then 160 - mRun.startTime else 0) ∧
    (mRun.getStatus 160).startTime = (if mRun.running then mRun.startTime else 0) ∧
    mRunAlt.getStatus 160 = mRun.getStatus 160 :=
  c9_get_status mRun mRunAlt 160 rfl rfl

/-- Claim C10: `Start()` tests the running flag before the config-file
check: on a Running supervisor whose config file does not exist it returns
the AlreadyRunning error with the state completely unmodified and no
process launched, and not the ConfigMissing error — the config check is
never reached. -/
theorem c10_start_checks_running_first (m : Manager) (fs : FS) (env : StartEnv)
    (h : m.running = true) (hfs : fs.configFile = none) :
    m.start fs env = { res := .error .alreadyRunning, state := m, launched := false } ∧
    (m.start fs env).res ≠ .error (.configMissing m.configPath) := by
  constructor
  · simp [Manager.start, h]
  · simp [Manager.start, h]

/-- Claim C10 (witness): a concrete Running manager with an empty config
directory. -/
theorem c10_witness :
    mRun.start fsEmpty { startOk := true, now := 900 } =
      { res := .error .alreadyRunning, state := mRun, launched := false } ∧
    (mRun.start fsEmpty { startOk := true, now := 900 }).res ≠
      .error (.configMissing mRun.configPath) :=
  c10_start_checks_running_first mRun fsEmpty { startOk := true, now := 900 } rfl rfl
